import Mathlib

/-!
Verification development for the dataset composition subsystem of the
`selfdriving-api` repository.

The embedding below follows four source files:

* `app/schemas/dataset.py` — request/response shapes and the integer
  encodings used on the wire (`DatasetItemKind`, `DatasetSourceKind`,
  `DatasetStateKind`).
* `app/models/dataset.py` — the stored rows (`DatasetModel`,
  `DatasetMemberModel`) and the integer encodings used for rows
  (`DatasetSourceType`, `DatasetStatus`).
* `app/services/dataset.py` — the `DatasetService` operations.
* `app/routers/datasets.py` — the `list_items` resolution endpoint.

The database visible to the service is modelled as an explicit state
(`DB`) holding the dataset rows, the dataset_member rows, and the id
sets of the datastream and scene tables.  A single counter (`clock`)
supplies fresh ids and `created_at`/`updated_at` timestamps; member
rows are appended in creation order, so `created_at` is strictly
increasing along `DB.members` and a plain filter realises the
`ORDER BY created_at ASC` used by `DatasetService.get`.

Fallible operations return `Except ApiError`; returning `Except.error`
models an exception escaping the service with the surrounding
transaction rolled back (no state change).
-/

namespace SelfDrivingApi

/-- Opaque identifier; UUIDs in the source are treated as opaque tokens. -/
abbrev UUID := Nat

/-- Opaque JSON document (membership `meta`, `algorithm_config`). -/
abbrev JsonDoc := Nat

/-- Error taxonomy of `app/utils/exceptions.py`, plus `attributeError`
for a Python `AttributeError` escaping the service layer (it is not an
`HTTPException`; the router surfaces it as an internal failure). -/
inductive ApiError where
  | notFound (detail : String)
  | badRequest (detail : String)
  | conflict (detail : String)
  | internalServer (detail : String)
  | attributeError (detail : String)
  deriving DecidableEq

namespace DatasetItemKind

/-- Item kind encoding of `app/schemas/dataset.py` (`DatasetItemKind`):
`1=datastream, 2=scene, 3=dataset`, matching the column comment on
`DatasetMemberModel.item_type` in `app/models/dataset.py`. -/
def DATASTREAM : Nat := 1

def SCENE : Nat := 2

def DATASET : Nat := 3

end DatasetItemKind

namespace DatasetSourceKind

/-- Source kind encoding of the schema layer (`app/schemas/dataset.py`). -/
def COMPOSED : Nat := 1

def EXTERNAL_FILE : Nat := 2

end DatasetSourceKind

namespace DatasetStateKind

def CREATING : Nat := 1

def READY : Nat := 2

def PROCESSING : Nat := 3

def FAILED : Nat := 4

end DatasetStateKind

namespace DatasetSourceType

/-- Source kind encoding of the model layer (`app/models/dataset.py`,
class `DatasetSourceType`).  Note it differs from the schema layer's
`DatasetSourceKind` (0/1 here versus 1/2 there). -/
def COMPOSED : Nat := 0

def EXTERNAL_FILE : Nat := 1

end DatasetSourceType

namespace DatasetStatus

/-- Status encoding of the model layer (`app/models/dataset.py`). -/
def CREATING : Nat := 0

def READY : Nat := 1

def PROCESSING : Nat := 2

def FAILED : Nat := 3

end DatasetStatus

/-- Embedding of `app.schemas.dataset.DatasetItem`: `item_type` is an
optional integer (pydantic bounds `1..3`, `None` permitted for untyped
legacy entries), `item_id` a UUID, `meta` an optional JSON object
(already normalised to dict-or-None by the schema validator). -/
structure DatasetItem where
  item_type : Option Nat
  item_id : UUID
  meta : Option JsonDoc
  deriving DecidableEq, Inhabited

/-- Schema-level validity of a `DatasetItem` (`ge=1, le=3`, or null). -/
def DatasetItem.schemaValid (i : DatasetItem) : Prop :=
  match i.item_type with
  | none => True
  | some t => 1 ≤ t ∧ t ≤ 3

/-- Embedding of the `DatasetModel` row (`app/models/dataset.py`). -/
structure DatasetModel where
  id : UUID
  name : String
  description : Option String
  purpose : Option String
  status : Nat
  source_type : Nat
  file_path : Option String
  file_format : Option String
  created_by : Option String
  scene_count : Nat
  datastream_count : Nat
  dataset_count : Nat
  algorithm_config : Option JsonDoc
  created_at : Nat
  updated_at : Nat
  deriving DecidableEq, Inhabited

/-- Embedding of the `DatasetMemberModel` row (`app/models/dataset.py`).
The column comment in the source reads
`# 1=datastream, 2=scene, 3=dataset. Nullable for legacy/unknown entries.` -/
structure DatasetMemberModel where
  dataset_id : UUID
  item_type : Option Nat
  item_id : UUID
  meta : Option JsonDoc
  created_at : Nat
  deriving DecidableEq, Inhabited

/-- Database state visible to `DatasetService`.  `members` is kept in
creation order (rows are only ever appended) and `clock` strictly
exceeds every timestamp already issued, so filtering `members` yields
the `ORDER BY created_at ASC` order. `datastreams` and `scenes` are the
id columns of the referenced tables. -/
structure DB where
  datasets : List DatasetModel
  members : List DatasetMemberModel
  datastreams : List UUID
  scenes : List UUID
  clock : Nat
  deriving DecidableEq, Inhabited

/-- Lookup of a dataset row by primary key (`session.get(DatasetModel, id)`). -/
def DB.findDataset (db : DB) (dataset_id : UUID) : Option DatasetModel :=
  db.datasets.find? (fun d => d.id == dataset_id)

/-- Member rows owned by a dataset, in creation order. -/
def DB.membersOf (db : DB) (dataset_id : UUID) : List DatasetMemberModel :=
  db.members.filter (fun m => m.dataset_id == dataset_id)

/-- Number of member rows of a dataset whose `item_type` equals `t`
(the per-group count of `_touch_counts`' `GROUP BY item_type` query). -/
def DB.countItemType (db : DB) (dataset_id : UUID) (t : Nat) : Nat :=
  (db.membersOf dataset_id).countP (fun m => m.item_type == some t)

/-- Replace the dataset row with id `d.id` by `d` (`session.add` of a
modified persistent object). -/
def DB.setDataset (db : DB) (d : DatasetModel) : DB :=
  { db with datasets := db.datasets.map (fun x => if x.id == d.id then d else x) }

/-- Embedding of `DatasetService._touch_counts`: recompute and persist
member counts.  The source reads the per-`item_type` group counts and
assigns `counts.get(0,0)` to `datastream_count`, `counts.get(1,0)` to
`scene_count` and `counts.get(2,0)` to `dataset_count`; `ds.save()`
bumps `updated_at`. -/
def touch_counts (db : DB) (dataset_id : UUID) : DB :=
  match db.findDataset dataset_id with
  | none => db
  | some ds =>
      let ds' : DatasetModel :=
        { ds with
          datastream_count := db.countItemType dataset_id 0
          scene_count := db.countItemType dataset_id 1
          dataset_count := db.countItemType dataset_id 2
          updated_at := db.clock }
      { db.setDataset ds' with clock := db.clock + 1 }

/-- Embedding of `DatasetService._normalize_meta`.  At every call site
in the service the argument has already passed the `DatasetItem` schema
validator, which returns dict-or-None, and on that domain the function is
the identity (the string branches are unreachable). -/
def normalize_meta (value : Option JsonDoc) : Option JsonDoc :=
  value

/-- Embedding of `DatasetService._validate_members_exist` (lines 73-102
of `app/services/dataset.py`).  Items with `item_type == 0` are checked
against the datastream table and items with `item_type == 1` against
the scene table, but missing ids are only logged as warnings, so those
checks have no observable effect here.  Items with `item_type == 2` are
treated as nested dataset references and must exist in the dataset
table, else `BadRequestException`. -/
def validate_members_exist (db : DB) (items : List DatasetItem) : Except ApiError Unit :=
  if items.isEmpty then Except.ok () else
  let dt_ids := (items.filter (fun i => i.item_type == some 2)).map (fun i => i.item_id)
  if dt_ids.isEmpty then Except.ok ()
  else
    let unique_ids := dt_ids.dedup
    let count := db.datasets.countP (fun d => unique_ids.contains d.id)
    if count < unique_ids.length then
      Except.error (ApiError.badRequest "Some dataset IDs do not exist")
    else Except.ok ()

/-- Datasets that contain `target_id` as an `item_type == 2` member
(the reverse-membership query of `collect_ancestors`). -/
def parentsOf (db : DB) (target_id : UUID) : List UUID :=
  (db.members.filter (fun m => m.item_type == some 2 && m.item_id == target_id)).map
    (fun m => m.dataset_id)

/-- Embedding of the recursive `collect_ancestors` closure inside
`DatasetService._detect_cycle`: depth-first walk of the reverse edges
with `ancestors` as the visited set.  The source recursion terminates
because each recursive call first inserts a fresh id into the visited
set; here the same bound is made explicit as fuel (one unit per member
row suffices, since every newly visited ancestor owns at least one
`item_type == 2` member row). -/
def collect_ancestors (db : DB) : Nat → UUID → List UUID → List UUID
  | 0, _, ancestors => ancestors
  | fuel + 1, target_id, ancestors =>
      (parentsOf db target_id).foldl
        (fun anc pid =>
          if anc.contains pid then anc
          else collect_ancestors db fuel pid (anc ++ [pid]))
        ancestors

/-- Embedding of `DatasetService._detect_cycle` (lines 104-128): only
items with `item_type == 2` are considered nested dataset references;
the operation fails if any of them equals the parent or one of its
ancestors. -/
def detect_cycle (db : DB) (parent_dataset_id : UUID) (items : List DatasetItem) :
    Except ApiError Unit :=
  let nested_ids := (items.filter (fun i => i.item_type == some 2)).map (fun i => i.item_id)
  if nested_ids.isEmpty then Except.ok ()
  else
    let ancestors := collect_ancestors db (db.members.length + 1) parent_dataset_id []
    if nested_ids.any (fun nid => nid == parent_dataset_id || ancestors.contains nid) then
      Except.error (ApiError.badRequest "Adding this nested dataset would create a cycle")
    else Except.ok ()

/-- Does inserting `r` violate the unique constraint
`uq_dataset_member_unique (dataset_id, item_type, item_id)`?  A SQL
`NULL` is distinct from every value, so a row with `item_type IS NULL`
never conflicts. -/
def violates_unique (rows : List DatasetMemberModel) (r : DatasetMemberModel) : Bool :=
  r.item_type.isSome && rows.any
    (fun m => m.dataset_id == r.dataset_id && m.item_type == r.item_type && m.item_id == r.item_id)

/-- Insert one `DatasetMemberModel` row; an `IntegrityError` on the
unique constraint surfaces as `ConflictException("Dataset membership
already exists")` with the whole transaction rolled back. -/
def insert_item (db : DB) (dataset_id : UUID) (item : DatasetItem) (meta : Option JsonDoc) :
    Except ApiError DB :=
  let row : DatasetMemberModel :=
    { dataset_id := dataset_id, item_type := item.item_type, item_id := item.item_id,
      meta := meta, created_at := db.clock }
  if violates_unique db.members row then
    Except.error (ApiError.conflict "Dataset membership already exists")
  else
    Except.ok { db with members := db.members ++ [row], clock := db.clock + 1 }

/-- Insert a batch of member rows for `dataset_id`.  `metaOf` is the
meta mapping of the call site: `normalize_meta` in `create`, the
identity in `update`/`add_items` (the raw `item.meta`). -/
def insert_items (db : DB) (dataset_id : UUID) (metaOf : Option JsonDoc → Option JsonDoc) :
    List DatasetItem → Except ApiError DB
  | [] => Except.ok db
  | item :: rest =>
      match insert_item db dataset_id item (metaOf item.meta) with
      | Except.error e => Except.error e
      | Except.ok db1 => insert_items db1 dataset_id metaOf rest

/-- Embedding of `app.schemas.dataset.DatasetCreate`, after pydantic
validation: `name` has passed `normalize_create_name` (trimmed and
non-empty), `source_type` is within the schema bounds `1..2`
(`DatasetSourceKind`), and each item has passed the `DatasetItem`
validator. -/
structure DatasetCreate where
  name : String
  description : Option String
  purpose : Option String
  source_type : Nat
  file_path : Option String
  file_format : Option String
  algorithm_config : Option JsonDoc
  created_by : Option String
  items : Option (List DatasetItem)
  deriving DecidableEq, Inhabited

/-- Embedding of the pydantic validator `DatasetCreate.normalize_create_name`:
trim, reject if empty. -/
def normalize_create_name (value : String) : Except String String :=
  let trimmed := value.trim
  if trimmed = "" then Except.error "name cannot be empty" else Except.ok trimmed

/-- Embedding of `DatasetService.create` (lines 133-196 of
`app/services/dataset.py`).  Note that `payload.source_type` carries the
schema encoding (`DatasetSourceKind`: 1=COMPOSED, 2=EXTERNAL_FILE) but
is compared against the model constants (`DatasetSourceType`:
0=COMPOSED, 1=EXTERNAL_FILE), exactly as in the source. -/
def create (db : DB) (payload : DatasetCreate) : Except ApiError (DB × DatasetModel) :=
  let step1 : Except ApiError DatasetCreate :=
    if payload.source_type = DatasetSourceType.EXTERNAL_FILE then
      let file_path := (payload.file_path.getD "").trim
      if file_path = "" then
        Except.error (ApiError.badRequest "EXTERNAL_FILE datasets require a non-empty file_path")
      else if !(payload.items.getD []).isEmpty then
        Except.error (ApiError.badRequest "EXTERNAL_FILE datasets do not support items")
      else Except.ok { payload with file_path := some file_path }
    else
      Except.ok { payload with file_path :=
        match payload.file_path with
        | some s => if s.trim = "" then none else some s
        | none => none }
  match step1 with
  | Except.error e => Except.error e
  | Except.ok payload =>
    let payload := { payload with file_format :=
      match payload.file_format with
      | some s => if s.trim = "" then none else some s
      | none => none }
    let dataset : DatasetModel :=
      { id := db.clock, name := payload.name, description := payload.description,
        purpose := payload.purpose, source_type := payload.source_type,
        file_path := payload.file_path, file_format := payload.file_format,
        created_by := payload.created_by, algorithm_config := payload.algorithm_config,
        status := if payload.source_type = DatasetSourceType.COMPOSED
          then DatasetStatus.CREATING else DatasetStatus.READY,
        scene_count := 0, datastream_count := 0, dataset_count := 0,
        created_at := db.clock, updated_at := db.clock }
    let db := { db with datasets := db.datasets ++ [dataset], clock := db.clock + 1 }
    if dataset.source_type = DatasetSourceType.COMPOSED then
      let items := payload.items.getD []
      let attached : Except ApiError DB :=
        if items.isEmpty then Except.ok db
        else
          match validate_members_exist db items with
          | Except.error e => Except.error e
          | Except.ok _ =>
            match detect_cycle db dataset.id items with
            | Except.error e => Except.error e
            | Except.ok _ => insert_items db dataset.id normalize_meta items
      match attached with
      | Except.error e => Except.error e
      | Except.ok db =>
        let db := touch_counts db dataset.id
        let ds2 :=
          match db.findDataset dataset.id with
          | some d => { d with status := DatasetStatus.READY }
          | none => { dataset with status := DatasetStatus.READY }
        Except.ok (db.setDataset ds2, ds2)
    else
      Except.ok (db, dataset)

/-- Embedding of `DatasetService.get` (lines 198-221): the dataset row
(or none) together with its direct members in creation order, meta
normalised. -/
def get (db : DB) (dataset_id : UUID) : Option DatasetModel × List DatasetItem :=
  match db.findDataset dataset_id with
  | none => (none, [])
  | some ds =>
      (some ds,
       (db.membersOf dataset_id).map
         (fun m => { item_type := m.item_type, item_id := m.item_id,
                     meta := normalize_meta m.meta }))

/-- Embedding of `app.schemas.dataset.DatasetUpdate`.  The status field
of the pydantic model is *named* `state`; `'status'` is only a
validation alias usable at construction time, not an attribute. -/
structure DatasetUpdate where
  name : Option String
  description : Option String
  purpose : Option String
  state : Option Nat
  algorithm_config : Option JsonDoc
  file_path : Option String
  file_format : Option String
  replace_items : Option (List DatasetItem)
  deriving DecidableEq, Inhabited

/-- Embedding of `DatasetService.update` (lines 288-354).  After the
404 check the source applies `name`, `description` and `purpose` to the
in-memory row and then evaluates `payload.status` (line 299); the
`DatasetUpdate` schema has no attribute `status` (its field is named
`state`), so Python raises `AttributeError`, the transaction context
manager rolls back, and nothing is persisted.  The pending in-memory
field assignments are therefore discarded. -/
def update (db : DB) (dataset_id : UUID) (payload : DatasetUpdate) :
    Except ApiError (DB × DatasetModel) :=
  match db.findDataset dataset_id with
  | none => Except.error (ApiError.notFound ("Dataset " ++ toString dataset_id ++ " not found"))
  | some dataset =>
      let dataset := match payload.name with
        | some n => { dataset with name := n }
        | none => dataset
      let dataset := match payload.description with
        | some d => { dataset with description := some d }
        | none => dataset
      let dataset := match payload.purpose with
        | some p => { dataset with purpose := some p }
        | none => dataset
      let _pending := dataset
      Except.error
        (ApiError.attributeError "DatasetUpdate object has no attribute status")

/-- Embedding of `app.schemas.dataset.DatasetFilter`.  As with
`DatasetUpdate`, the status field is named `state` and `'status'` is
only a validation alias.  `offset` and `limit` carry their pydantic
defaults 0 and 20 (bounds `ge=0` and `ge=1, le=200`). -/
structure DatasetFilter where
  search : Option String
  purpose : Option String
  state : Option Nat
  source_type : Option Nat
  created_by : Option String
  created_from : Option Nat
  created_to : Option Nat
  offset : Nat
  limit : Nat
  deriving DecidableEq, Inhabited

/-- Case-insensitive substring test, modelling `name ILIKE %term%`. -/
def ilikeContains (name term : String) : Bool :=
  (name.toLower.splitOn term.toLower).length > 1

/-- Embedding of `DatasetService._build_filter_conditions` (lines
223-243).  The source appends the `search` and `purpose` conditions and
then evaluates `filters.status` (line 232); `DatasetFilter` has no
attribute `status` (the field is named `state`), so Python raises
`AttributeError` unconditionally and no condition list is ever
returned. -/
def build_filter_conditions (filters : DatasetFilter) :
    Except ApiError (List (DatasetModel → Bool)) :=
  let conditions0 : List (DatasetModel → Bool) := []
  let conditions1 : List (DatasetModel → Bool) :=
    match filters.search with
    | some s =>
        if s.trim ≠ "" then
          conditions0 ++ [fun (d : DatasetModel) => ilikeContains d.name s.trim]
        else conditions0
    | none => conditions0
  let conditions2 : List (DatasetModel → Bool) :=
    match filters.purpose with
    | some p => conditions1 ++ [fun (d : DatasetModel) => d.purpose == some p]
    | none => conditions1
  let _pending := conditions2
  Except.error (ApiError.attributeError "DatasetFilter object has no attribute status")

/-- Insert a dataset row into a list sorted by `created_at` descending
(helper for the `ORDER BY created_at DESC` of `DatasetService.list`). -/
def insertByCreatedDesc (d : DatasetModel) : List DatasetModel → List DatasetModel
  | [] => [d]
  | x :: xs => if x.created_at ≤ d.created_at then d :: x :: xs else x :: insertByCreatedDesc d xs

/-- Sort dataset rows by `created_at` descending. -/
def sortByCreatedDesc (l : List DatasetModel) : List DatasetModel :=
  l.foldr insertByCreatedDesc []

/-- Embedding of `DatasetService.list` (lines 245-274): build the filter
conditions, compute the exact total, then return the ordered page at
`offset`/`limit`.  Because `build_filter_conditions` always raises (see
above), the pagination logic is unreachable in the source. -/
def list (db : DB) (filters : DatasetFilter) : Except ApiError (List DatasetModel × Nat) :=
  match build_filter_conditions filters with
  | Except.error e => Except.error e
  | Except.ok conditions =>
      let rows := db.datasets.filter (fun d => conditions.all (fun c => c d))
      let total := rows.length
      let limit := if filters.limit ≤ 0 then 20 else filters.limit
      let offset := filters.offset
      Except.ok (((sortByCreatedDesc rows).drop offset).take limit, total)

/-- Embedding of `DatasetService.count` (lines 276-286). -/
def count (db : DB) (filters : DatasetFilter) : Except ApiError Nat :=
  match build_filter_conditions filters with
  | Except.error e => Except.error e
  | Except.ok conditions =>
      Except.ok (db.datasets.countP (fun d => conditions.all (fun c => c d)))

/-- Embedding of `DatasetService.add_items` (lines 356-395).  The
source-kind guard compares the stored `source_type` against the model
constant `DatasetSourceType.COMPOSED = 0`; member rows are inserted
with the raw `item.meta`. -/
def add_items (db : DB) (dataset_id : UUID) (req_items : List DatasetItem) :
    Except ApiError (DB × DatasetModel) :=
  match db.findDataset dataset_id with
  | none => Except.error (ApiError.notFound ("Dataset " ++ toString dataset_id ++ " not found"))
  | some dataset =>
    if dataset.source_type ≠ DatasetSourceType.COMPOSED then
      Except.error (ApiError.badRequest "Cannot add items to an EXTERNAL_FILE dataset")
    else if req_items.isEmpty then Except.ok (db, dataset)
    else
      match validate_members_exist db req_items with
      | Except.error e => Except.error e
      | Except.ok _ =>
        match detect_cycle db dataset_id req_items with
        | Except.error e => Except.error e
        | Except.ok _ =>
          match insert_items db dataset_id (fun m => m) req_items with
          | Except.error e => Except.error e
          | Except.ok db1 =>
            let db2 := touch_counts db1 dataset_id
            match db2.findDataset dataset_id with
            | some ds2 => Except.ok (db2, ds2)
            | none => Except.ok (db2, dataset)

/-- The `WHERE` clause of the member `DELETE` in `remove_items`:
`dataset_id == dataset_id AND item_type == item.item_type AND item_id
== item.item_id` (SQLAlchemy renders a comparison with `None` as
`IS NULL`, which `Option` equality mirrors). -/
def member_matches (dataset_id : UUID) (item : DatasetItem) (m : DatasetMemberModel) : Bool :=
  m.dataset_id == dataset_id && m.item_type == item.item_type && m.item_id == item.item_id

/-- Delete all member rows matching `(dataset_id, item.item_type,
item.item_id)` (one `DELETE` statement of `remove_items`). -/
def delete_member (db : DB) (dataset_id : UUID) (item : DatasetItem) : DB :=
  { db with members := db.members.filter (fun m => !(member_matches dataset_id item m)) }

/-- Embedding of `DatasetService.remove_items` (lines 397-427). -/
def remove_items (db : DB) (dataset_id : UUID) (req_items : List DatasetItem) :
    Except ApiError (DB × DatasetModel) :=
  match db.findDataset dataset_id with
  | none => Except.error (ApiError.notFound ("Dataset " ++ toString dataset_id ++ " not found"))
  | some dataset =>
    if dataset.source_type ≠ DatasetSourceType.COMPOSED then
      Except.error (ApiError.badRequest "Cannot remove items from an EXTERNAL_FILE dataset")
    else if req_items.isEmpty then Except.ok (db, dataset)
    else
      let db1 := req_items.foldl (fun acc item => delete_member acc dataset_id item) db
      let db2 := touch_counts db1 dataset_id
      match db2.findDataset dataset_id with
      | some ds2 => Except.ok (db2, ds2)
      | none => Except.ok (db2, dataset)

/-- Resolution modes of the items endpoint (`resolve=direct|leaf|all`). -/
inductive Resolve where
  | direct
  | leaf
  | all
  deriving DecidableEq, Inhabited

/-- Embedding of the `_filter_and_dedupe` closure in
`app/routers/datasets.py` `list_items`: optional item-kind filter, then
optional deduplication by `(item_type, item_id)` keeping the first
occurrence. -/
def filter_and_dedupe (item_type : Option Nat) (dedupe : Bool) (items : List DatasetItem) :
    List DatasetItem :=
  let seq := match item_type with
    | none => items
    | some t => items.filter (fun x => x.item_type == some t)
  if dedupe then
    (seq.foldl
      (fun (acc : List (Option Nat × UUID) × List DatasetItem) x =>
        if acc.1.contains (x.item_type, x.item_id) then acc
        else (acc.1 ++ [(x.item_type, x.item_id)], acc.2 ++ [x]))
      ([], [])).2
  else seq

/-- Embedding of the recursive `dfs` closure in `list_items`: mark the
dataset visited, fetch it, then traverse its items in order, appending
non-dataset items, recursing into `item_type == DatasetItemKind.DATASET
(= 3)` members (and also appending the dataset node itself when
`resolve = all`).  The accumulator is the pair (visited, out).  The
source recursion terminates because of the visited guard; the bound is
made explicit as fuel. -/
def dfs (db : DB) (resolve : Resolve) :
    Nat → UUID → List UUID × List DatasetItem → List UUID × List DatasetItem
  | 0, _, acc => acc
  | fuel + 1, did, acc =>
      if acc.1.contains did then acc
      else
        let acc := (acc.1 ++ [did], acc.2)
        match get db did with
        | (none, _) => acc
        | (some _, items) =>
            items.foldl
              (fun acc it =>
                if it.item_type == some DatasetItemKind.DATASET then
                  let acc := if resolve = Resolve.all then (acc.1, acc.2 ++ [it]) else acc
                  dfs db resolve fuel it.item_id acc
                else (acc.1, acc.2 ++ [it]))
              acc

/-- Fuel that always suffices for `dfs`: the recursion depth is bounded
by the number of distinct dataset ids plus one missing id. -/
def dfsFuel (db : DB) : Nat :=
  db.datasets.length + 2

/-- Embedding of the router endpoint `list_items`
(`app/routers/datasets.py`, lines 140-200), with the query defaults
`item_type = none` and `dedupe = false` supplied by the caller. -/
def list_items (db : DB) (dataset_id : UUID) (resolve : Resolve)
    (item_type : Option Nat) (dedupe : Bool) : Except ApiError (List DatasetItem) :=
  if resolve = Resolve.direct then
    match get db dataset_id with
    | (none, _) => Except.error (ApiError.notFound "Dataset not found")
    | (some _, items) => Except.ok (filter_and_dedupe item_type dedupe items)
  else
    let acc := dfs db resolve (dfsFuel db) dataset_id ([], [])
    Except.ok (filter_and_dedupe item_type dedupe acc.2)

deriving instance DecidableEq for Except

/-- Did the operation succeed? -/
def resOk (r : Except ApiError (DB × DatasetModel)) : Bool :=
  r.toOption.isSome

/-- Database state returned by a successful operation. -/
def resDB (r : Except ApiError (DB × DatasetModel)) : DB :=
  (r.toOption.getD default).1

/-- Dataset row returned by a successful operation. -/
def resDS (r : Except ApiError (DB × DatasetModel)) : DatasetModel :=
  (r.toOption.getD default).2

/-- A COMPOSED dataset row (model encoding `source_type = 0`) with no
members and counters 0, used as the parent in the concrete scenarios. -/
def dsP : DatasetModel :=
  { id := 1, name := "parent", description := none, purpose := none,
    status := DatasetStatus.READY, source_type := DatasetSourceType.COMPOSED,
    file_path := none, file_format := none, created_by := none,
    scene_count := 0, datastream_count := 0, dataset_count := 0,
    algorithm_config := none, created_at := 10, updated_at := 10 }

/-- State holding the single dataset `dsP` and nothing else. -/
def dbP : DB :=
  { datasets := [dsP], members := [], datastreams := [], scenes := [], clock := 50 }

/-- The empty database state. -/
def dbEmpty : DB :=
  { datasets := [], members := [], datastreams := [], scenes := [], clock := 0 }

/-- Nested dataset row B of the `listItems` scenario. -/
def dsB : DatasetModel :=
  { dsP with id := 2, name := "nested", created_at := 11, updated_at := 11 }

/-- Member row A: datastream member of dataset 1. -/
def rowA : DatasetMemberModel :=
  { dataset_id := 1, item_type := some DatasetItemKind.DATASTREAM, item_id := 100,
    meta := none, created_at := 20 }

/-- Member row B: nested dataset member (dataset 2) of dataset 1. -/
def rowB : DatasetMemberModel :=
  { dataset_id := 1, item_type := some DatasetItemKind.DATASET, item_id := 2,
    meta := none, created_at := 21 }

/-- Member row C: scene member of the nested dataset 2. -/
def rowC : DatasetMemberModel :=
  { dataset_id := 2, item_type := some DatasetItemKind.SCENE, item_id := 200,
    meta := none, created_at := 22 }

/-- The `listItems` scenario state: dataset 1 has direct members
[A(datastream 100), B(dataset 2)] and dataset 2 has members
[C(scene 200)]. -/
def db7 : DB :=
  { datasets := [dsP, dsB], members := [rowA, rowB, rowC],
    datastreams := [100], scenes := [200], clock := 30 }

/-- Item record of member row A as returned by `get`. -/
def itemA : DatasetItem :=
  { item_type := some DatasetItemKind.DATASTREAM, item_id := 100, meta := none }

/-- Item record of member row B as returned by `get`. -/
def itemB : DatasetItem :=
  { item_type := some DatasetItemKind.DATASET, item_id := 2, meta := none }

/-- Item record of member row C as returned by `get`. -/
def itemC : DatasetItem :=
  { item_type := some DatasetItemKind.SCENE, item_id := 200, meta := none }

/-- Item list for the add/remove round trip: two fresh datastream-kind
references, the second carrying a meta document. -/
def L9 : List DatasetItem :=
  [{ item_type := some DatasetItemKind.DATASTREAM, item_id := 100, meta := none },
   { item_type := some DatasetItemKind.DATASTREAM, item_id := 101, meta := some 7 }]

/-- Result of the round-trip `addItems` call on the concrete state. -/
def add9 : Except ApiError (DB × DatasetModel) :=
  add_items dbP 1 L9

/-- The filter with every field at its schema default. -/
def emptyFilter : DatasetFilter :=
  { search := none, purpose := none, state := none, source_type := none,
    created_by := none, created_from := none, created_to := none,
    offset := 0, limit := 20 }

/-- Update payload carrying only a new description. -/
def updDescription : DatasetUpdate :=
  { name := none, description := some "updated description", purpose := none,
    state := none, algorithm_config := none, file_path := none,
    file_format := none, replace_items := none }

/-- Update payload requesting a full item replacement with the empty set. -/
def updReplaceEmpty : DatasetUpdate :=
  { name := none, description := none, purpose := none,
    state := none, algorithm_config := none, file_path := none,
    file_format := none, replace_items := some [] }

/-- State for the replace scenario: dataset 1 (COMPOSED) currently owns
one datastream member row. -/
def dbM : DB :=
  { datasets := [{ dsP with datastream_count := 0, scene_count := 1 }],
    members := [rowA], datastreams := [100], scenes := [], clock := 60 }

/-- Create payload with schema source kind EXTERNAL_FILE
(`DatasetSourceKind.EXTERNAL_FILE = 2`) and no file path. -/
def createExtNoPath : DatasetCreate :=
  { name := "external dataset", description := none, purpose := none,
    source_type := DatasetSourceKind.EXTERNAL_FILE, file_path := none,
    file_format := none, algorithm_config := none, created_by := none, items := none }

/-- Create payload with schema source kind EXTERNAL_FILE, a non-empty
file path, and an items list. -/
def createExtWithItems : DatasetCreate :=
  { name := "external dataset", description := none, purpose := none,
    source_type := DatasetSourceKind.EXTERNAL_FILE, file_path := some "x",
    file_format := none, algorithm_config := none, created_by := none,
    items := some [{ item_type := some DatasetItemKind.DATASTREAM, item_id := 100, meta := none }] }

/-- DATASET-kind reference to the nonexistent dataset id 300. -/
def itemD300 : DatasetItem :=
  { item_type := some DatasetItemKind.DATASET, item_id := 300, meta := none }

/-- DATASET-kind self-reference to dataset 1. -/
def itemSelf : DatasetItem :=
  { item_type := some DatasetItemKind.DATASET, item_id := 1, meta := none }

/-- SCENE-kind reference to the id 200, absent from every table of `dbP`. -/
def itemS200 : DatasetItem :=
  { item_type := some DatasetItemKind.SCENE, item_id := 200, meta := none }

/-- The dataset row with the counters recomputed over the state `db`
(the row written back by `_touch_counts`). -/
def recounted (db : DB) (did : UUID) (ds : DatasetModel) : DatasetModel :=
  { ds with
    datastream_count := db.countItemType did 0,
    scene_count := db.countItemType did 1,
    dataset_count := db.countItemType did 2,
    updated_at := db.clock }

/-!
Claim theorems.
-/

/-- C1.  The claim states that after every membership-mutating
operation `datastream_count`/`scene_count`/`dataset_count` equal the
number of member rows of kind DATASTREAM (=1) / SCENE (=2) / DATASET
(=3), and that their sum equals the total member count.  The code
refutes it: `_touch_counts` assigns the counts of `item_type` 0, 1, 2
to the three counters, so after adding one DATASTREAM-kind member the
dataset has one DATASTREAM row but `datastream_count = 0` (the row is
counted as `scene_count`), and after adding one DATASET-kind member the
counter sum is 0 while one member row exists. -/
theorem C1_count_encoding_bug :
    resOk (add_items dbP 1 [itemA]) = true
    ∧ ((resDB (add_items dbP 1 [itemA])).membersOf 1).countP
        (fun m => m.item_type == some DatasetItemKind.DATASTREAM) = 1
    ∧ (resDS (add_items dbP 1 [itemA])).datastream_count = 0
    ∧ (resDS (add_items dbP 1 [itemA])).scene_count = 1
    ∧ resOk (add_items dbP 1 [itemD300]) = true
    ∧ ((resDB (add_items dbP 1 [itemD300])).membersOf 1).length = 1
    ∧ (resDS (add_items dbP 1 [itemD300])).datastream_count
        + (resDS (add_items dbP 1 [itemD300])).scene_count
        + (resDS (add_items dbP 1 [itemD300])).dataset_count = 0 := by
  decide

/-- C2.  The claim states that adding a nested-dataset reference equal
to the parent itself fails with a cycle validation error and persists
no edge.  The code refutes it: `_detect_cycle` (and
`_validate_members_exist`) only treat `item_type == 2` as a nested
dataset, while the schema encodes DATASET as 3
(`DatasetItemKind.DATASET`), so adding a DATASET-kind self-reference
succeeds and persists a self-loop edge. -/
theorem C2_cycle_detection_bug :
    resOk (add_items dbP 1 [itemSelf]) = true
    ∧ (resDB (add_items dbP 1 [itemSelf])).members.any
        (fun m => m.dataset_id == 1 && m.item_type == some DatasetItemKind.DATASET
            && m.item_id == 1) = true := by
  decide

/-- C3.  The claim states that update applies each supplied mutable
field and returns the updated dataset.  The code refutes it: the
`DatasetUpdate` pydantic field is named `state` (`'status'` is only a
validation alias), so line 299 of the service (`payload.status`) raises
`AttributeError` on every call and no update ever succeeds; only the
not-found half of the claim holds. -/
theorem C3_update_attribute_bug :
    update dbP 1 updDescription
      = Except.error (ApiError.attributeError "DatasetUpdate object has no attribute status")
    ∧ update dbP 999 updDescription
      = Except.error (ApiError.notFound "Dataset 999 not found") := by
  decide

/-- C4.  The claim states that `list` returns a correctly filtered and
paginated page together with an exact total, and that `count` matches.
The code refutes it: `_build_filter_conditions` evaluates
`filters.status` (line 232), but the `DatasetFilter` field is named
`state`, so every `list` and `count` call raises `AttributeError` and
never returns a page. -/
theorem C4_list_attribute_bug :
    SelfDrivingApi.list dbP emptyFilter
      = Except.error (ApiError.attributeError "DatasetFilter object has no attribute status")
    ∧ SelfDrivingApi.count dbP emptyFilter
      = Except.error (ApiError.attributeError "DatasetFilter object has no attribute status") := by
  decide

/-- C5.  The claim states that missing datastream/scene references are
only warned about while missing nested-dataset references always fail
hard.  The code refutes both directions: `_validate_members_exist`
treats `item_type == 2` (SCENE in the schema encoding) as the nested
dataset group, so a SCENE reference absent from the dataset table fails
hard, while a DATASET-kind (=3) reference to a nonexistent dataset is
never checked and succeeds. -/
theorem C5_existence_check_bug :
    add_items dbP 1 [itemS200]
      = Except.error (ApiError.badRequest "Some dataset IDs do not exist")
    ∧ resOk (add_items dbP 1 [itemD300]) = true := by
  decide

/-- C6.  The claim states that creating an EXTERNAL_FILE dataset with
no file path, or with an items list, fails validation with nothing
persisted.  The code refutes it: the payload carries the schema
encoding (`DatasetSourceKind.EXTERNAL_FILE = 2`) but `create` compares
it against the model constant (`DatasetSourceType.EXTERNAL_FILE = 1`),
so both creates succeed — a dataset row is persisted with no file path
in the first case, and the items list is silently dropped in the
second. -/
theorem C6_external_file_create_bug :
    resOk (create dbEmpty createExtNoPath) = true
    ∧ (resDB (create dbEmpty createExtNoPath)).datasets.length = 1
    ∧ (resDS (create dbEmpty createExtNoPath)).file_path = none
    ∧ resOk (create dbEmpty createExtWithItems) = true
    ∧ (resDB (create dbEmpty createExtWithItems)).members.length = 0 := by
  decide

/-- C8.  The claim states that update with `replaceItems` atomically
replaces the membership when valid.  The code refutes the success half:
`update` evaluates `payload.status` (line 299) before it reaches the
`replace_items` handling, so every replace attempt dies with
`AttributeError` and the previous membership survives only because the
transaction rolls back — no replacement is ever installed. -/
theorem C8_replace_items_bug :
    update dbM 1 updReplaceEmpty
      = Except.error (ApiError.attributeError "DatasetUpdate object has no attribute status") := by
  decide

/-- C10.  For every existing dataset whose stored `source_type` is the
model constant COMPOSED (= 0), `add_items` and `remove_items` with an
empty item list return the dataset unchanged and perform no write at
all: the returned state is exactly the input state, so no member row,
no counter and no `updated_at` is touched. -/
theorem C10_empty_items_noop (db : DB) (did : UUID) (ds : DatasetModel)
    (hfind : db.findDataset did = some ds)
    (hsrc : ds.source_type = DatasetSourceType.COMPOSED) :
    add_items db did [] = Except.ok (db, ds)
    ∧ remove_items db did [] = Except.ok (db, ds) := by
  constructor
  · simp [add_items, hfind, hsrc, DatasetSourceType.COMPOSED]
  · simp [remove_items, hfind, hsrc, DatasetSourceType.COMPOSED]

/-- Witness for C10 at the concrete state `dbP`. -/
theorem C10_empty_items_noop_witness :
    add_items dbP 1 [] = Except.ok (dbP, dsP)
    ∧ remove_items dbP 1 [] = Except.ok (dbP, dsP) :=
  C10_empty_items_noop dbP 1 dsP (by decide) (by decide)

/-- Every item returned by `get` carries the `item_type` of some member
row of the state. -/
theorem mem_get_snd {db : DB} {did : UUID} {x : DatasetItem}
    (h : x ∈ (get db did).2) :
    ∃ m ∈ db.members, x.item_type = m.item_type := by
  cases hf : db.findDataset did with
  | none => simp [get, hf] at h
  | some ds =>
      simp only [get, hf] at h
      obtain ⟨m, hm, hx⟩ := List.mem_map.mp h
      refine ⟨m, ?_, ?_⟩
      · exact (List.mem_filter.mp hm).1
      · rw [← hx]

/-- Soundness of the leaf traversal with respect to the accumulator:
anything in the output of a leaf-mode `dfs` either was already in the
accumulator or is an item of some member row whose `item_type` is not
`DatasetItemKind.DATASET`. -/
theorem dfs_leaf_out_sound (db : DB) :
    ∀ (fuel : Nat) (did : UUID) (acc : List UUID × List DatasetItem) (x : DatasetItem),
      x ∈ (dfs db Resolve.leaf fuel did acc).2 →
      x ∈ acc.2
      ∨ ((∃ m ∈ db.members, x.item_type = m.item_type)
          ∧ x.item_type ≠ some DatasetItemKind.DATASET) := by
  intro fuel
  induction fuel with
  | zero => intro did acc x hx; exact Or.inl hx
  | succ fuel ih =>
      intro did acc x hx
      rw [dfs] at hx
      by_cases hvis : acc.1.contains did
      · rw [if_pos hvis] at hx; exact Or.inl hx
      · rw [if_neg hvis] at hx
        rcases hg : get db did with ⟨o, items⟩
        rw [hg] at hx
        cases o with
        | none => exact Or.inl hx
        | some ds =>
            have hitems : ∀ it ∈ items, ∃ m ∈ db.members, it.item_type = m.item_type := by
              intro it hit
              exact mem_get_snd (by rw [hg]; exact hit)
            clear hg hvis
            -- generalize over the accumulator and fold over the item list
            suffices hgen : ∀ (l : List DatasetItem)
                (hl : ∀ it ∈ l, ∃ m ∈ db.members, it.item_type = m.item_type)
                (init : List UUID × List DatasetItem),
                x ∈ (l.foldl
                  (fun acc it =>
                    if it.item_type == some DatasetItemKind.DATASET then
                      let acc := if Resolve.leaf = Resolve.all then (acc.1, acc.2 ++ [it]) else acc
                      dfs db Resolve.leaf fuel it.item_id acc
                    else (acc.1, acc.2 ++ [it]))
                  init).2 →
                x ∈ init.2
                ∨ ((∃ m ∈ db.members, x.item_type = m.item_type)
                    ∧ x.item_type ≠ some DatasetItemKind.DATASET) by
              rcases hgen items hitems (acc.1 ++ [did], acc.2) hx with h | h
              · exact Or.inl h
              · exact Or.inr h
            intro l
            induction l with
            | nil => intro _ init hx0; exact Or.inl hx0
            | cons it rest ihl =>
                intro hl init hx0
                rw [List.foldl_cons] at hx0
                have hrest : ∀ j ∈ rest, ∃ m ∈ db.members, j.item_type = m.item_type := by
                  intro j hj; exact hl j (List.mem_cons_of_mem _ hj)
                rcases ihl hrest _ hx0 with hmem | hgood
                · by_cases ht : it.item_type == some DatasetItemKind.DATASET
                  · rw [if_pos ht] at hmem
                    simp only [show (Resolve.leaf = Resolve.all) = False by simp,
                      if_false] at hmem
                    rcases ih it.item_id init x hmem with h | h
                    · exact Or.inl h
                    · exact Or.inr h
                  · rw [if_neg ht] at hmem
                    rcases List.mem_append.mp hmem with h | h
                    · exact Or.inl h
                    · have hx_it : x = it := by simpa using h
                      subst hx_it
                      refine Or.inr ⟨hl x (List.mem_cons_self _ _), ?_⟩
                      simpa using ht
                · exact Or.inr hgood

/-- C7.  `listItems` resolution: on the concrete scenario — dataset 1
with direct members [A(datastream 100), B(dataset 2)] and dataset 2
with member [C(scene 200)] — `resolve=direct` returns exactly [A, B],
`resolve=leaf` returns exactly [A, C] (B never emitted), and
`resolve=all` returns exactly [A, B, C].  In general, on any state
whose member rows are well-typed (kinds 1, 2, 3), the leaf traversal
emits only DATASTREAM- or SCENE-kind items. -/
theorem C7_list_items_resolution :
    (list_items db7 1 Resolve.direct none false = Except.ok [itemA, itemB]
      ∧ list_items db7 1 Resolve.leaf none false = Except.ok [itemA, itemC]
      ∧ list_items db7 1 Resolve.all none false = Except.ok [itemA, itemB, itemC])
    ∧ ∀ (db : DB) (did : UUID) (fuel : Nat) (x : DatasetItem),
        (∀ m ∈ db.members,
            m.item_type = some DatasetItemKind.DATASTREAM
            ∨ m.item_type = some DatasetItemKind.SCENE
            ∨ m.item_type = some DatasetItemKind.DATASET) →
        x ∈ (dfs db Resolve.leaf fuel did ([], [])).2 →
        (x.item_type = some DatasetItemKind.DATASTREAM
          ∨ x.item_type = some DatasetItemKind.SCENE) := by
  constructor
  · exact ⟨by decide, by decide, by decide⟩
  · intro db did fuel x hdb hx
    rcases dfs_leaf_out_sound db fuel did ([], []) x hx with h | ⟨⟨m, hm, hxt⟩, hne⟩
    · simp at h
    · rcases hdb m hm with h1 | h2 | h3
      · exact Or.inl (hxt.trans h1)
      · exact Or.inr (hxt.trans h2)
      · exact absurd (hxt.trans h3) hne

/-- Witness for C7 instantiating the general leaf-typing conjunct on
the concrete scenario state. -/
theorem C7_list_items_resolution_witness :
    itemA.item_type = some DatasetItemKind.DATASTREAM
    ∨ itemA.item_type = some DatasetItemKind.SCENE :=
  C7_list_items_resolution.2 db7 1 (dfsFuel db7) itemA (by decide) (by decide)

/-- Rewriting a dataset row leaves the member table unchanged. -/
theorem setDataset_members (db : DB) (d : DatasetModel) :
    (db.setDataset d).members = db.members := rfl

/-- The counter recomputation touches only the dataset table. -/
theorem touch_counts_members (db : DB) (did : UUID) :
    (touch_counts db did).members = db.members := by
  cases h : db.findDataset did <;> simp [touch_counts, h, DB.setDataset]

/-- `findDataset` depends only on the dataset table. -/
theorem findDataset_ext {db db' : DB} (h : db.datasets = db'.datasets) (x : UUID) :
    db.findDataset x = db'.findDataset x := by
  simp [DB.findDataset, h]

/-- A found dataset row carries the searched id. -/
theorem findDataset_id {db : DB} {did : UUID} {ds : DatasetModel}
    (h : db.findDataset did = some ds) : ds.id = did := by
  unfold DB.findDataset at h
  simpa using List.find?_some h

/-- Searching for `d.id` after replacing the row with that id yields `d`,
provided a row with that id was present. -/
theorem find?_set_self : ∀ (l : List DatasetModel) (d y : DatasetModel),
    l.find? (fun x => x.id == d.id) = some y →
    (l.map (fun x => if x.id == d.id then d else x)).find? (fun x => x.id == d.id) = some d := by
  intro l d
  induction l with
  | nil => intro y h; simp at h
  | cons a l ih =>
      intro y h
      by_cases ha : (a.id == d.id) = true
      · rw [List.map_cons, if_pos ha]
        exact List.find?_cons_of_pos _ (by simp)
      · rw [@List.find?_cons_of_neg _ (fun x => x.id == d.id) a l ha] at h
        rw [List.map_cons, if_neg ha,
          @List.find?_cons_of_neg _ (fun x => x.id == d.id) a _ ha]
        exact ih y h

/-- `setDataset` version of `find?_set_self`. -/
theorem findDataset_setDataset {db : DB} {d y : DatasetModel}
    (h : db.findDataset d.id = some y) :
    (db.setDataset d).findDataset d.id = some d := by
  unfold DB.findDataset DB.setDataset at *
  exact find?_set_self db.datasets d y h

/-- The per-kind member count depends only on the member table. -/
theorem countItemType_ext {db db' : DB} (h : db.members = db'.members) (did : UUID) (t : Nat) :
    db.countItemType did t = db'.countItemType did t := by
  simp [DB.countItemType, DB.membersOf, h]

/-- Inversion of a successful single-row insert. -/
theorem insert_item_ok {db : DB} {did : UUID} {item : DatasetItem}
    {meta : Option JsonDoc} {db' : DB}
    (h : insert_item db did item meta = Except.ok db') :
    db' = { db with
      members := db.members ++
        [{ dataset_id := did, item_type := item.item_type, item_id := item.item_id,
           meta := meta, created_at := db.clock }],
      clock := db.clock + 1 } := by
  simp only [insert_item] at h
  split at h
  · cases h
  · cases h; rfl

/-- Inversion of a successful member batch insert: the dataset table is
unchanged and the member table is extended by rows that all belong to
`did` and each originate from an item of the batch. -/
theorem insert_items_ok (metaOf : Option JsonDoc → Option JsonDoc) :
    ∀ (L : List DatasetItem) (db db' : DB) (did : UUID),
      insert_items db did metaOf L = Except.ok db' →
      db'.datasets = db.datasets
      ∧ ∃ rows : List DatasetMemberModel,
          db'.members = db.members ++ rows
          ∧ ∀ r ∈ rows, r.dataset_id = did
              ∧ ∃ i ∈ L, r.item_type = i.item_type ∧ r.item_id = i.item_id := by
  intro L
  induction L with
  | nil =>
      intro db db' did h
      simp only [insert_items] at h
      cases h
      exact ⟨rfl, [], by simp, by simp⟩
  | cons i rest ih =>
      intro db db' did h
      simp only [insert_items] at h
      split at h
      · cases h
      · rename_i db1 heq
        have hdb1 := insert_item_ok heq
        subst hdb1
        obtain ⟨hds, rows, hmem, hrows⟩ := ih _ db' did h
        refine ⟨hds.trans rfl, ?_⟩
        refine ⟨{ dataset_id := did, item_type := i.item_type, item_id := i.item_id,
                  meta := metaOf i.meta, created_at := db.clock } :: rows, ?_, ?_⟩
        · rw [hmem]; simp
        · intro r hr
          rcases List.mem_cons.mp hr with hr | hr
          · subst hr
            exact ⟨rfl, i, List.mem_cons_self _ _, rfl, rfl⟩
          · obtain ⟨hdid, j, hj, hjt, hji⟩ := hrows r hr
            exact ⟨hdid, j, List.mem_cons_of_mem _ hj, hjt, hji⟩

/-- The member `DELETE` loop touches only the member table. -/
theorem delete_fold_datasets : ∀ (L : List DatasetItem) (db : DB) (did : UUID),
    (L.foldl (fun acc item => delete_member acc did item) db).datasets = db.datasets := by
  intro L
  induction L with
  | nil => intro db did; rfl
  | cons i rest ih =>
      intro db did
      rw [List.foldl_cons]
      exact (ih _ _).trans rfl

/-- The member `DELETE` loop filters out exactly the rows matched by
some item of the request. -/
theorem delete_fold_members : ∀ (L : List DatasetItem) (db : DB) (did : UUID),
    (L.foldl (fun acc item => delete_member acc did item) db).members
      = db.members.filter (fun m => L.all (fun i => !(member_matches did i m))) := by
  intro L
  induction L with
  | nil => intro db did; simp
  | cons i rest ih =>
      intro db did
      rw [List.foldl_cons, ih]
      simp only [delete_member]
      rw [List.filter_filter]
      apply List.filter_congr
      intro m _
      simp [List.all_cons, Bool.and_comm]

/-- Closed form of `touch_counts` when the dataset exists. -/
theorem touch_counts_eq {db : DB} {did : UUID} {ds : DatasetModel}
    (h : db.findDataset did = some ds) :
    touch_counts db did
      = { db.setDataset (recounted db did ds) with clock := db.clock + 1 } := by
  simp only [touch_counts, h]
  rfl

/-- After `touch_counts`, looking the dataset up again yields the row
with the recomputed counters. -/
theorem findDataset_touch {db : DB} {did : UUID} {ds : DatasetModel}
    (h : db.findDataset did = some ds) :
    (touch_counts db did).findDataset did = some (recounted db did ds) := by
  have hdsid : ds.id = did := findDataset_id h
  have hrid : (recounted db did ds).id = did := hdsid
  rw [touch_counts_eq h]
  show (db.setDataset (recounted db did ds)).findDataset did = _
  have h2 : db.findDataset (recounted db did ds).id = some ds := by
    rw [hrid]; exact h
  have h3 := findDataset_setDataset h2
  rwa [hrid] at h3

/-- On an existing dataset whose stored source kind is the model
constant COMPOSED, `remove_items` never fails. -/
theorem remove_items_ok_of_composed {db : DB} {did : UUID} {ds : DatasetModel}
    (hfind : db.findDataset did = some ds)
    (hsrc : ds.source_type = DatasetSourceType.COMPOSED) (items : List DatasetItem) :
    ∃ r, remove_items db did items = Except.ok r := by
  by_cases hempty : items.isEmpty
  · exact ⟨(db, ds),
      by simp [remove_items, hfind, hsrc, DatasetSourceType.COMPOSED, hempty]⟩
  · cases hf2 : (touch_counts
        (items.foldl (fun acc item => delete_member acc did item) db) did).findDataset did with
    | none =>
        refine ⟨(touch_counts
          (items.foldl (fun acc item => delete_member acc did item) db) did, ds), ?_⟩
        simp [remove_items, hfind, hsrc, DatasetSourceType.COMPOSED, hempty, hf2]
    | some ds2 =>
        refine ⟨(touch_counts
          (items.foldl (fun acc item => delete_member acc did item) db) did, ds2), ?_⟩
        simp [remove_items, hfind, hsrc, DatasetSourceType.COMPOSED, hempty, hf2]

/-- C9.  On any state, for any dataset whose stored source kind is the
model constant COMPOSED and whose counters agree with its member rows
(as recomputed by the code), a successful `addItems` with an item list
none of whose `(kind, id)` pairs is already a member, followed by
`removeItems` with the same list, restores the member table exactly and
returns the three counters to their pre-add values; moreover
`removeItems` with any item list whatsoever (present or absent pairs)
never fails — removal is idempotent. -/
theorem C9_add_remove_round_trip
    (db : DB) (did : UUID) (ds : DatasetModel) (L : List DatasetItem)
    (db1 : DB) (ds1 : DatasetModel)
    (hfind : db.findDataset did = some ds)
    (hsrc : ds.source_type = DatasetSourceType.COMPOSED)
    (hfresh : ∀ i ∈ L, ∀ m ∈ db.members,
        ¬(m.dataset_id = did ∧ m.item_type = i.item_type ∧ m.item_id = i.item_id))
    (hc0 : ds.datastream_count = db.countItemType did 0)
    (hc1 : ds.scene_count = db.countItemType did 1)
    (hc2 : ds.dataset_count = db.countItemType did 2)
    (hadd : add_items db did L = Except.ok (db1, ds1)) :
    (∃ db2 ds2, remove_items db1 did L = Except.ok (db2, ds2)
        ∧ db2.members = db.members
        ∧ ds2.datastream_count = ds.datastream_count
        ∧ ds2.scene_count = ds.scene_count
        ∧ ds2.dataset_count = ds.dataset_count)
    ∧ (∀ items : List DatasetItem, ∃ r, remove_items db did items = Except.ok r) := by
  refine ⟨?_, fun items => remove_items_ok_of_composed hfind hsrc items⟩
  cases L with
  | nil =>
      simp [add_items, hfind, hsrc, DatasetSourceType.COMPOSED] at hadd
      obtain ⟨h1, h2⟩ := hadd
      subst h1
      subst h2
      refine ⟨db, ds, ?_, rfl, rfl, rfl, rfl⟩
      simp [remove_items, hfind, hsrc, DatasetSourceType.COMPOSED]
  | cons i0 L0 =>
      simp only [add_items, hfind] at hadd
      rw [if_neg (not_not_intro hsrc)] at hadd
      rw [if_neg (by simp : ¬((i0 :: L0).isEmpty = true))] at hadd
      split at hadd
      · cases hadd
      · split at hadd
        · cases hadd
        · split at hadd
          · cases hadd
          · rename_i db' hins
            obtain ⟨hds', rows, hmem, hrows⟩ :=
              insert_items_ok (fun m => m) (i0 :: L0) db db' did hins
            have hfind' : db'.findDataset did = some ds :=
              (findDataset_ext hds' did).trans hfind
            rw [findDataset_touch hfind'] at hadd
            simp only [Except.ok.injEq, Prod.mk.injEq] at hadd
            obtain ⟨hdb1, hds1⟩ := hadd
            subst hdb1
            subst hds1
            have hfind1 : (touch_counts db' did).findDataset did
                = some (recounted db' did ds) := findDataset_touch hfind'
            have hFm : (List.foldl (fun acc item => delete_member acc did item)
                (touch_counts db' did) (i0 :: L0)).members = db.members := by
              rw [delete_fold_members, touch_counts_members, hmem, List.filter_append]
              have hold : db.members.filter
                  (fun m => (i0 :: L0).all (fun i => !(member_matches did i m)))
                  = db.members := by
                rw [List.filter_eq_self]
                intro m hm
                rw [List.all_eq_true]
                intro i hi
                rw [Bool.not_eq_true', ← Bool.not_eq_true]
                intro hmv
                apply hfresh i hi m hm
                simpa [member_matches, Bool.and_eq_true, beq_iff_eq, and_assoc] using hmv
              have hnew : rows.filter
                  (fun m => (i0 :: L0).all (fun i => !(member_matches did i m)))
                  = [] := by
                rw [List.filter_eq_nil_iff]
                intro r hr hall
                obtain ⟨hdid, j, hj, hjt, hji⟩ := hrows r hr
                rw [List.all_eq_true] at hall
                have hfalse := hall j hj
                rw [Bool.not_eq_true'] at hfalse
                have htrue : member_matches did j r = true := by
                  simp [member_matches, Bool.and_eq_true, beq_iff_eq, hdid, hjt, hji]
                simp [htrue] at hfalse
              rw [hold, hnew, List.append_nil]
            have hFd : (List.foldl (fun acc item => delete_member acc did item)
                (touch_counts db' did) (i0 :: L0)).datasets
                = (touch_counts db' did).datasets :=
              delete_fold_datasets (i0 :: L0) (touch_counts db' did) did
            have hfindF : (List.foldl (fun acc item => delete_member acc did item)
                (touch_counts db' did) (i0 :: L0)).findDataset did
                = some (recounted db' did ds) :=
              (findDataset_ext hFd did).trans hfind1
            refine ⟨touch_counts (List.foldl (fun acc item => delete_member acc did item)
                (touch_counts db' did) (i0 :: L0)) did,
              recounted (List.foldl (fun acc item => delete_member acc did item)
                (touch_counts db' did) (i0 :: L0)) did (recounted db' did ds),
              ?_, ?_, ?_, ?_, ?_⟩
            · have hsrcR : (recounted db' did ds).source_type = DatasetSourceType.COMPOSED :=
                hsrc
              simp only [remove_items, hfind1]
              rw [if_neg (not_not_intro hsrcR)]
              rw [if_neg (by simp : ¬((i0 :: L0).isEmpty = true))]
              rw [findDataset_touch hfindF]
            · exact (touch_counts_members _ _).trans hFm
            · exact (countItemType_ext hFm did 0).trans hc0.symm
            · exact (countItemType_ext hFm did 1).trans hc1.symm
            · exact (countItemType_ext hFm did 2).trans hc2.symm

/-- Witness for C9 at the concrete state `dbP` with the two-item list
`L9`; the successful add result is `add9`. -/
theorem C9_add_remove_round_trip_witness :
    (∃ db2 ds2, remove_items (resDB add9) 1 L9 = Except.ok (db2, ds2)
        ∧ db2.members = dbP.members
        ∧ ds2.datastream_count = dsP.datastream_count
        ∧ ds2.scene_count = dsP.scene_count
        ∧ ds2.dataset_count = dsP.dataset_count)
    ∧ (∀ items : List DatasetItem, ∃ r, remove_items dbP 1 items = Except.ok r) :=
  C9_add_remove_round_trip dbP 1 dsP L9 (resDB add9) (resDS add9)
    (by decide) (by decide) (by decide) (by decide) (by decide) (by decide) (by decide)

end SelfDrivingApi
